import Mathlib

/-!
Verification of the forecast-evaluation pipeline of the pycsep workshop
repository against its specification.

The repository consists of two tutorial notebooks that orchestrate calls into
the external pycsep statistical library, and two PDF-assembly shell scripts.
The pipeline abstraction (Region, Catalog, Forecast, TestResult, the filter
operations, `runTest`, `compareTests`, serialization) is not implemented in
the repository's own sources — the notebooks only call it — so those
definitions are modelled from the specification's words.  The shell scripts
are present in the sources and are embedded directly.
-/

namespace PycsepWorkshop

/-- A spatial cell of a region's grid (a grid midpoint), modelled as a pair
of integer grid coordinates. -/
abbrev Cell := Int × Int

/-- Modelled from the spec: a Region is an ordered set of spatial cells plus
an ordered sequence of magnitude bin edges (lower-inclusive, final bin
open-ended to infinity).  Magnitudes are decimal data with two digits and are
modelled in hundredths of a magnitude unit, so the tutorials' 4.95 is 495. -/
structure Region where
  cells : List Cell
  magBinEdges : List Int
  deriving DecidableEq, Repr

/-- Modelled from the spec: an observed event with origin time, location and
magnitude.  The origin time is an epoch integer, the magnitude an integer in
hundredths of a magnitude unit. -/
structure Event where
  origin_time : Int
  location : Cell
  magnitude : Int
  deriving DecidableEq, Repr

/-- Modelled from the spec: a Catalog is an ordered sequence of observed
events.  Filter operations are pure transformations returning a new catalog;
the catalog records the region it was last filtered to (the spec's "catalog's
filtering region", checked against a forecast's region by the pipeline) and
the magnitude threshold it was last filtered to (used for the magnitude-range
compatibility precondition). -/
structure Catalog where
  events : List Event
  filteringRegion : Option Region
  minMagnitude : Option Int
  deriving DecidableEq, Repr

/-- Modelled from the spec: `filterSpatial(region)` returns a new catalog
containing only the events whose location falls in one of the region's
cells, and records the region as the catalog's filtering region. -/
def Catalog.filterSpatial (c : Catalog) (r : Region) : Catalog :=
  { events := c.events.filter (fun e => decide (e.location ∈ r.cells))
    filteringRegion := some r
    minMagnitude := c.minMagnitude }

/-- Modelled from the spec: `filterMagnitude(minMw)` returns a new catalog
containing only the events of magnitude at least `minMw` (the notebooks'
`catalog.filter('magnitude >= 4.95')`), and records the threshold. -/
def Catalog.filterMagnitude (c : Catalog) (minMw : Int) : Catalog :=
  { events := c.events.filter (fun e => decide (minMw ≤ e.magnitude))
    filteringRegion := c.filteringRegion
    minMagnitude := some minMw }

/-- Number of events in a catalog. -/
def Catalog.eventCount (c : Catalog) : Nat :=
  c.events.length

/-- Modelled from the spec: a gridded Forecast owns exactly one Region and a
named identifier; it assigns a fixed rate per spatial cell (the per-bin
detail is aggregated per cell here), stored as an association list over the
region's cells. -/
structure Forecast where
  name : String
  region : Region
  rates : List (Cell × ℚ)

/-- The forecast's rate in a given cell (0 outside the stored cells). -/
def Forecast.rateAt (f : Forecast) (cell : Cell) : ℚ :=
  (f.rates.lookup cell).getD 0

/-- Modelled from the spec: the error kinds of the pipeline. -/
inductive PipelineError where
  | formatError
  | regionMismatchError
  | magnitudeRangeError
  deriving DecidableEq, Repr

/-- Modelled from the spec: an immutable record of a statistical test's name,
its observed value, a simulated distribution, tagged with the forecast's
identifier for later comparison and plotting. -/
structure TestResult where
  testName : String
  observed : ℚ
  testDistribution : List ℚ
  simName : String
  deriving DecidableEq, Repr

/-- Modelled from the spec: the forecast/catalog magnitude-range
compatibility precondition.  The catalog must carry a magnitude filtering
threshold at least the forecast's lowest magnitude bin edge; a catalog never
filtered by magnitude has no declared range and is treated as incompatible. -/
def magnitudeCompatible (f : Forecast) (c : Catalog) : Bool :=
  match c.minMagnitude, f.region.magBinEdges.head? with
  | some m, some lo => decide (lo ≤ m)
  | _, _ => false

/-- The result of the number test (N-test): the observed statistic is the
event count of the evaluation catalog; the reference value is the forecast's
total expected rate. -/
def numberTestResult (f : Forecast) (c : Catalog) : TestResult :=
  { testName := "numberTest"
    observed := (c.eventCount : ℚ)
    testDistribution := [(f.rates.map (fun p => p.2)).sum]
    simName := f.name }

/-- A placeholder result for the named tests whose statistics live in the
external library (spatial, magnitude, likelihood tests): they share the
pipeline's precondition checks; their statistic is out of scope. -/
def genericTestResult (testName : String) (f : Forecast) (c : Catalog) : TestResult :=
  { testName := testName
    observed := (c.eventCount : ℚ)
    testDistribution := []
    simName := f.name }

/-- Modelled from the spec: `runTest(testName, forecast, catalog)`.
Preconditions: the forecast's region equals the catalog's filtering region
(else `RegionMismatchError`), and the magnitude ranges are compatible (else
`MagnitudeRangeError`); only then is the named test invoked. -/
def runTest (testName : String) (f : Forecast) (c : Catalog) :
    Except PipelineError TestResult :=
  if c.filteringRegion = some f.region then
    if magnitudeCompatible f c then
      match testName with
      | "numberTest" => .ok (numberTestResult f c)
      | _ => .ok (genericTestResult testName f c)
    else .error .magnitudeRangeError
  else .error .regionMismatchError

/-- Modelled from the spec: the result of a paired comparison test between a
baseline forecast and a candidate forecast against one shared catalog,
reporting a relative information-gain statistic. -/
structure ComparisonResult where
  testName : String
  baselineName : String
  candidateName : String
  informationGain : ℚ
  deriving DecidableEq, Repr

/-- Modelled from the spec: a surrogate for the paired T-test's per-event
information-gain statistic (the genuine T-test formula lives in the external
library and is out of scope): the mean, over the catalog's events, of the
difference of the two forecasts' rates in the event's cell. -/
def informationGainStatistic (baseline candidate : Forecast) (c : Catalog) : ℚ :=
  if c.eventCount = 0 then 0
  else (c.events.map (fun e => candidate.rateAt e.location - baseline.rateAt e.location)).sum
    / (c.eventCount : ℚ)

/-- Modelled from the spec: `compareTests(baselineForecast, otherForecast,
catalog)` runs a paired test between two forecasts against one shared
catalog.  It is a function of its three arguments alone: no ambient state,
clock or random source enters the computation. -/
def compareTests (baseline candidate : Forecast) (c : Catalog) : ComparisonResult :=
  { testName := "pairedTTest"
    baselineName := baseline.name
    candidateName := candidate.name
    informationGain := informationGainStatistic baseline candidate c }

/-- Modelled from the spec: the persisted form of a TestResult, a structured
JSON-like document with named fields (the notebooks' `csep.write_json`). -/
inductive PersistedValue where
  | str : String → PersistedValue
  | num : ℚ → PersistedValue
  | arr : List PersistedValue → PersistedValue
  | obj : List (String × PersistedValue) → PersistedValue

/-- Modelled from the spec: `serialize(result)` writes the test's name, the
observed value, the simulated distribution samples and the forecast label as
named fields of a structured document. -/
def serialize (r : TestResult) : PersistedValue :=
  .obj [("name", .str r.testName),
        ("observed_statistic", .num r.observed),
        ("test_distribution", .arr (r.testDistribution.map PersistedValue.num)),
        ("sim_name", .str r.simName)]

/-- Decode a list of persisted numbers back to the distribution samples. -/
def decodeSamples : List PersistedValue → Option (List ℚ)
  | [] => some []
  | .num q :: rest => (decodeSamples rest).map (fun l => q :: l)
  | _ => none

/-- Modelled from the spec: `deserialize(persisted form)` reads the named
fields back into a TestResult; a document missing a field or holding a field
of the wrong shape is rejected. -/
def deserialize (v : PersistedValue) : Option TestResult :=
  match v with
  | .obj fields =>
    match fields.lookup "name", fields.lookup "observed_statistic",
        fields.lookup "test_distribution", fields.lookup "sim_name" with
    | some (.str n), some (.num o), some (.arr d), some (.str s) =>
      match decodeSamples d with
      | some samples =>
        some { testName := n, observed := o, testDistribution := samples, simName := s }
      | none => none
    | _, _, _, _ => none
  | _ => none

/-- Modelled from the spec: a time filter on events, as assigned by the
catalog notebook (`origin_time >= forecast.start_epoch`,
`origin_time < forecast.end_epoch`). -/
inductive EventFilter where
  | originTimeGe (t : Int)
  | originTimeLt (t : Int)
  deriving DecidableEq, Repr

/-- Whether an event passes a time filter. -/
def EventFilter.applies : EventFilter → Event → Bool
  | .originTimeGe t, e => decide (t ≤ e.origin_time)
  | .originTimeLt t, e => decide (e.origin_time < t)

/-- Modelled from the spec: a catalog-based forecast, a restartable lazy
sequence of per-simulation event sets.  `sourceSimulations` is the
unmaterialized on-disk simulation data; `filters` are the forecast's current
time filters, which may be reassigned between iteration passes. -/
structure CatalogForecast where
  name : String
  region : Region
  start_epoch : Int
  end_epoch : Int
  sourceSimulations : List (List Event)
  filters : List EventFilter
  deriving DecidableEq, Repr

/-- Modelled from the spec: `load_catalog_forecast` constructs the forecast
without materializing any simulation: it records the raw simulation source
and starts with no filters assigned. -/
def load_catalog_forecast (name : String) (source : List (List Event))
    (start_epoch end_epoch : Int) (region : Region) : CatalogForecast :=
  { name := name
    region := region
    start_epoch := start_epoch
    end_epoch := end_epoch
    sourceSimulations := source
    filters := [] }

/-- The notebook's mutation `forecast.filters = [...]` between load and
iteration: replace the forecast's current filters. -/
def CatalogForecast.withFilters (f : CatalogForecast) (fs : List EventFilter) :
    CatalogForecast :=
  { f with filters := fs }

/-- Modelled from the spec: one iteration pass over the forecast's
simulations.  Each pass reads the raw source and applies the filters as they
are set at the moment of iteration. -/
def CatalogForecast.iterateSimulations (f : CatalogForecast) : List (List Event) :=
  f.sourceSimulations.map (fun sim => sim.filter (fun e => f.filters.all (·.applies e)))

/-- The expected number of events per simulation, a consumer of the lazy
sequence (the notebook's `get_expected_rates`): computed from an iteration
pass, hence from the currently filtered simulations. -/
def CatalogForecast.get_expected_rates (f : CatalogForecast) : ℚ :=
  if f.sourceSimulations.length = 0 then 0
  else ((f.iterateSimulations.map List.length).sum : ℚ) / (f.sourceSimulations.length : ℚ)

/-- A command of the PDF-assembly shell scripts: piping an SVG through
inkscape to produce a PDF, merging PDFs into one output with a named tool,
or removing files. -/
inductive ShellCommand where
  | convertSvgToPdf (svgInput pdfOutput : String)
  | mergePdfs (tool : String) (inputs : List String) (output : String)
  | removeFiles (files : List String)
  deriving DecidableEq, Repr

/-- The command sequence of `organizational/create_pdf.sh`:
`cat invitation.svg | inkscape --pipe --export-filename=invitation.pdf`,
`cat agenda.svg | inkscape --pipe --export-filename=agenda.pdf`,
`pdfjoin --outfile CSEPworkshop_invitation.pdf --no-landscape invitation.pdf agenda.pdf`,
`rm invitation.pdf agenda.pdf`. -/
def create_pdf_sh : List ShellCommand :=
  [ .convertSvgToPdf "invitation.svg" "invitation.pdf",
    .convertSvgToPdf "agenda.svg" "agenda.pdf",
    .mergePdfs "pdfjoin" ["invitation.pdf", "agenda.pdf"] "CSEPworkshop_invitation.pdf",
    .removeFiles ["invitation.pdf", "agenda.pdf"] ]

/-- The command sequence of the unnamed shell-script variant:
`cat invitation.svg | inkscape --pipe --export-filename=invitation.pdf`,
`cat agenda.svg | inkscape --pipe --export-filename=agenda.pdf`,
`pdfunite invitation.pdf agenda.pdf RISE_CSEP_Workshop_invitation.pdf`,
`rm invitation.pdf agenda.pdf`. -/
def create_pdf_variant : List ShellCommand :=
  [ .convertSvgToPdf "invitation.svg" "invitation.pdf",
    .convertSvgToPdf "agenda.svg" "agenda.pdf",
    .mergePdfs "pdfunite" ["invitation.pdf", "agenda.pdf"] "RISE_CSEP_Workshop_invitation.pdf",
    .removeFiles ["invitation.pdf", "agenda.pdf"] ]

/-- The set of files present, as a list of file names. -/
abbrev FileState := List String

/-- Effect of one command on the files present, given the success (`true`)
or failure of each external tool invocation: a successful conversion or
merge creates its output file, a failed one creates nothing; `rm` removes
its arguments.  Both scripts run every command unconditionally — they use a
plain `sh` command list with no `set -e`, no `&&` and no conditionals — so
no command's execution is guarded by an earlier exit status. -/
def runCommand (outcome : ShellCommand → Bool) (fs : FileState) :
    ShellCommand → FileState
  | .convertSvgToPdf i o =>
    if outcome (.convertSvgToPdf i o) then o :: fs else fs
  | .mergePdfs t ins o =>
    if outcome (.mergePdfs t ins o) then o :: fs else fs
  | .removeFiles files => fs.filter (fun f => decide (f ∉ files))

/-- Run a script: execute its commands in order, each one unconditionally. -/
def runScript (outcome : ShellCommand → Bool) (fs : FileState)
    (script : List ShellCommand) : FileState :=
  script.foldl (runCommand outcome) fs

/-- An outcome in which both SVG conversions succeed and every PDF merge
fails. -/
def mergeFailsOutcome : ShellCommand → Bool
  | .mergePdfs _ _ _ => false
  | _ => true

/-- Filtering a list twice by the same boolean predicate is the same as
filtering it once. -/
lemma filter_self_idem {α : Type} (p : α → Bool) (l : List α) :
    (l.filter p).filter p = l.filter p := by
  induction l with
  | nil => rfl
  | cons a t ih =>
    by_cases h : p a = true
    · simp [List.filter, h, ih]
    · simp [List.filter, h, ih]

/-- Filtering a list by two boolean predicates commutes. -/
lemma filter_comm {α : Type} (p q : α → Bool) (l : List α) :
    (l.filter p).filter q = (l.filter q).filter p := by
  induction l with
  | nil => rfl
  | cons a t ih =>
    by_cases hp : p a = true <;> by_cases hq : q a = true <;>
      simp [List.filter, hp, hq, ih]

/-- C2: For every catalog C and every region R, applying the spatial filter
with R twice gives the same catalog as applying it once:
`C.filterSpatial(R).filterSpatial(R) = C.filterSpatial(R)` (idempotence). -/
theorem filterSpatial_idempotent (c : Catalog) (r : Region) :
    (c.filterSpatial r).filterSpatial r = c.filterSpatial r := by
  simp [Catalog.filterSpatial, filter_self_idem]

/-- C6: For every catalog C, region R and magnitude threshold m, the spatial
and magnitude filters commute:
`C.filterSpatial(R).filterMagnitude(m) = C.filterMagnitude(m).filterSpatial(R)`. -/
theorem filterSpatial_filterMagnitude_comm (c : Catalog) (r : Region) (m : Int) :
    (c.filterSpatial r).filterMagnitude m = (c.filterMagnitude m).filterSpatial r := by
  unfold Catalog.filterSpatial Catalog.filterMagnitude
  simp only [Catalog.mk.injEq]
  exact ⟨filter_comm _ _ _, trivial, trivial⟩

/-- C5: For every catalog C and region R disjoint from the locations of all
events of C, `C.filterSpatial(R)` is a valid catalog of zero events; the
operation is total (it returns a Catalog, never an error), and an empty
result is not itself an error. -/
theorem filterSpatial_disjoint_empty (c : Catalog) (r : Region)
    (h : ∀ e ∈ c.events, e.location ∉ r.cells) :
    (c.filterSpatial r).eventCount = 0 := by
  simp only [Catalog.filterSpatial, Catalog.eventCount, List.length_eq_zero,
    List.filter_eq_nil_iff]
  intro e he
  simpa using h e he

/-- Witness for C5 at a concrete catalog and region: one event at cell
(0, 0), a region whose only cell is (5, 5). -/
theorem filterSpatial_disjoint_empty_witness :
    (Catalog.filterSpatial
      { events := [{ origin_time := 0, location := (0, 0), magnitude := 500 }]
        filteringRegion := none
        minMagnitude := none }
      { cells := [(5, 5)], magBinEdges := [495] }).eventCount = 0 :=
  filterSpatial_disjoint_empty _ _ (by decide)

/-- C4: running any named test of a forecast against a catalog filtered to
the region of another forecast whose cell set differs fails with
`RegionMismatchError`; no TestResult is produced. -/
theorem runTest_region_mismatch (testName : String) (f g : Forecast) (c : Catalog)
    (h : f.region.cells ≠ g.region.cells) :
    runTest testName f (c.filterSpatial g.region) =
      .error PipelineError.regionMismatchError := by
  have hne : g.region ≠ f.region := fun hq => h (by rw [hq])
  unfold runTest
  rw [if_neg]
  simp only [Catalog.filterSpatial, Option.some.injEq]
  exact hne

/-- Witness for C4: two concrete forecasts over one-cell regions with
different cells, the spatial test name of the notebooks. -/
theorem runTest_region_mismatch_witness :
    runTest "spatialTest"
      { name := "Werner, et al (2010)"
        region := { cells := [(0, 0)], magBinEdges := [495] }
        rates := [((0, 0), 1)] }
      (Catalog.filterSpatial
        { events := [], filteringRegion := none, minMagnitude := none }
        { cells := [(1, 1)], magBinEdges := [495] }) =
      .error PipelineError.regionMismatchError :=
  runTest_region_mismatch _ _
    { name := "Meletti et al (2010), MPS working group"
      region := { cells := [(1, 1)], magBinEdges := [495] }
      rates := [((1, 1), 1)] }
    _ (by decide)

/-- C1: for a catalog obtained by filtering an input catalog to the
forecast's spatial region and then to magnitude >= 4.95 (495 hundredths),
holding exactly 13 events (as the Italy RCMT evaluation catalog of the
tutorial does), the number test reports an observed count of exactly 13. -/
theorem runTest_numberTest_observed_13 (f : Forecast) (c0 : Catalog)
    (hbins : f.region.magBinEdges.head? = some 495)
    (h13 : ((c0.filterSpatial f.region).filterMagnitude 495).eventCount = 13) :
    ∃ res : TestResult,
      runTest "numberTest" f ((c0.filterSpatial f.region).filterMagnitude 495) =
        .ok res ∧ res.observed = 13 := by
  have hreg : ((c0.filterSpatial f.region).filterMagnitude 495).filteringRegion =
      some f.region := by
    simp [Catalog.filterSpatial, Catalog.filterMagnitude]
  have hmag : magnitudeCompatible f ((c0.filterSpatial f.region).filterMagnitude 495) =
      true := by
    simp [magnitudeCompatible, Catalog.filterSpatial, Catalog.filterMagnitude, hbins]
  refine ⟨numberTestResult f ((c0.filterSpatial f.region).filterMagnitude 495), ?_, ?_⟩
  · unfold runTest
    rw [if_pos hreg, if_pos hmag]
    rfl
  · simp [numberTestResult, h13]

/-- Witness for C1: a concrete forecast over a one-cell region with lowest
bin edge 495 (4.95), and an input catalog of 13 magnitude-500 (5.0) events
in that cell. -/
theorem runTest_numberTest_observed_13_witness :
    ∃ res : TestResult,
      runTest "numberTest"
        { name := "Werner, et al (2010)"
          region := { cells := [(0, 0)], magBinEdges := [495] }
          rates := [((0, 0), 10)] }
        ((Catalog.filterSpatial
            { events := List.replicate 13
                { origin_time := 0, location := (0, 0), magnitude := 500 }
              filteringRegion := none
              minMagnitude := none }
            { cells := [(0, 0)], magBinEdges := [495] }).filterMagnitude 495) =
        .ok res ∧ res.observed = 13 :=
  runTest_numberTest_observed_13 _ _ (by decide) (by decide)

/-- C7: the paired comparison test is a deterministic function of its
inputs: two calls with identical baseline, candidate and catalog produce
identical ComparisonResults. -/
theorem compareTests_deterministic (a a' b b' : Forecast) (c c' : Catalog)
    (ha : a = a') (hb : b = b') (hc : c = c') :
    compareTests a b c = compareTests a' b' c' := by
  rw [ha, hb, hc]

/-- Witness for C7 at concrete forecasts and a concrete catalog. -/
theorem compareTests_deterministic_witness :
    compareTests
      { name := "Meletti et al (2010), MPS working group"
        region := { cells := [(0, 0)], magBinEdges := [495] }
        rates := [((0, 0), 2)] }
      { name := "Werner, et al (2010)"
        region := { cells := [(0, 0)], magBinEdges := [495] }
        rates := [((0, 0), 3)] }
      { events := [{ origin_time := 0, location := (0, 0), magnitude := 500 }]
        filteringRegion := none
        minMagnitude := none } =
    compareTests
      { name := "Meletti et al (2010), MPS working group"
        region := { cells := [(0, 0)], magBinEdges := [495] }
        rates := [((0, 0), 2)] }
      { name := "Werner, et al (2010)"
        region := { cells := [(0, 0)], magBinEdges := [495] }
        rates := [((0, 0), 3)] }
      { events := [{ origin_time := 0, location := (0, 0), magnitude := 500 }]
        filteringRegion := none
        minMagnitude := none } :=
  compareTests_deterministic _ _ _ _ _ _ rfl rfl rfl

/-- Decoding the encoded samples recovers them exactly. -/
lemma decodeSamples_map_num (l : List ℚ) :
    decodeSamples (l.map PersistedValue.num) = some l := by
  induction l with
  | nil => rfl
  | cons q rest ih => simp [decodeSamples, ih]

/-- C3: for every TestResult r, deserializing the serialized persisted form
of r yields a TestResult equal to r: the statistic value, the labels and
every distribution sample are preserved in value (exactly, hence within any
floating-point tolerance). -/
theorem deserialize_serialize (r : TestResult) :
    deserialize (serialize r) = some r := by
  unfold serialize deserialize
  simp [List.lookup, decodeSamples_map_num]

/-- C8: loading a catalog forecast materializes no filtered simulations: the
loaded object holds the raw source unchanged and no filters; and every
iteration pass applies the filters set at the moment of iteration — after
the notebook's post-load assignment of `forecast.filters`, both iteration
and the expected-rates consumer see the raw source filtered by the newly
assigned filters, not by the (empty) load-time filters. -/
theorem load_catalog_forecast_lazy (name : String) (source : List (List Event))
    (start_epoch end_epoch : Int) (region : Region) (fs : List EventFilter) :
    (load_catalog_forecast name source start_epoch end_epoch region).sourceSimulations
        = source ∧
    (load_catalog_forecast name source start_epoch end_epoch region).filters = [] ∧
    ((load_catalog_forecast name source start_epoch end_epoch region).withFilters
        fs).iterateSimulations
        = source.map (fun sim => sim.filter (fun e => fs.all (·.applies e))) ∧
    ((load_catalog_forecast name source start_epoch end_epoch region).withFilters
        fs).get_expected_rates
        = (if source.length = 0 then 0
           else (((source.map (fun sim => sim.filter (fun e => fs.all (·.applies e)))).map
                List.length).sum : ℚ) / (source.length : ℚ)) :=
  ⟨rfl, rfl, rfl, rfl⟩

/-- C9: both PDF-assembly shell scripts perform exactly the sequence:
convert invitation.svg to a PDF, convert agenda.svg to a PDF, merge the two
produced PDFs into one output file, delete the two intermediate PDFs — in
that order; and a fully successful run starting from an empty directory
leaves exactly the merged output file. -/
theorem create_pdf_sequence :
    create_pdf_sh =
      [ .convertSvgToPdf "invitation.svg" "invitation.pdf",
        .convertSvgToPdf "agenda.svg" "agenda.pdf",
        .mergePdfs "pdfjoin" ["invitation.pdf", "agenda.pdf"] "CSEPworkshop_invitation.pdf",
        .removeFiles ["invitation.pdf", "agenda.pdf"] ] ∧
    create_pdf_variant =
      [ .convertSvgToPdf "invitation.svg" "invitation.pdf",
        .convertSvgToPdf "agenda.svg" "agenda.pdf",
        .mergePdfs "pdfunite" ["invitation.pdf", "agenda.pdf"]
          "RISE_CSEP_Workshop_invitation.pdf",
        .removeFiles ["invitation.pdf", "agenda.pdf"] ] ∧
    runScript (fun _ => true) [] create_pdf_sh = ["CSEPworkshop_invitation.pdf"] ∧
    runScript (fun _ => true) [] create_pdf_variant = ["RISE_CSEP_Workshop_invitation.pdf"] :=
  ⟨rfl, rfl, by decide, by decide⟩

/-- C10: in both script variants the final `rm` runs unconditionally: for
every outcome of the external tools in which the two conversions succeed
(producing invitation.pdf and agenda.pdf) and the merge fails, both
intermediates exist right before the merge step yet are deleted by the end
of the run, while no merged output exists either — the scripts restore no
state on error. -/
theorem create_pdf_rm_unconditional (outcome : ShellCommand → Bool)
    (hconv1 : outcome (.convertSvgToPdf "invitation.svg" "invitation.pdf") = true)
    (hconv2 : outcome (.convertSvgToPdf "agenda.svg" "agenda.pdf") = true)
    (hmerge1 : outcome (.mergePdfs "pdfjoin" ["invitation.pdf", "agenda.pdf"]
        "CSEPworkshop_invitation.pdf") = false)
    (hmerge2 : outcome (.mergePdfs "pdfunite" ["invitation.pdf", "agenda.pdf"]
        "RISE_CSEP_Workshop_invitation.pdf") = false) :
    "invitation.pdf" ∈ runScript outcome [] (create_pdf_sh.take 2) ∧
      "agenda.pdf" ∈ runScript outcome [] (create_pdf_sh.take 2) ∧
      runScript outcome [] create_pdf_sh = [] ∧
      "invitation.pdf" ∈ runScript outcome [] (create_pdf_variant.take 2) ∧
      "agenda.pdf" ∈ runScript outcome [] (create_pdf_variant.take 2) ∧
      runScript outcome [] create_pdf_variant = [] := by
  unfold create_pdf_sh create_pdf_variant runScript
  simp only [List.take, List.foldl, runCommand, hconv1, hconv2, hmerge1, hmerge2,
    if_true, if_false]
  refine ⟨by simp, by simp, by decide, by simp, by simp, by decide⟩

/-- Witness for C10 at a concrete outcome: both conversions succeed, both
merge tools fail. -/
theorem create_pdf_rm_unconditional_witness :
    "invitation.pdf" ∈ runScript mergeFailsOutcome [] (create_pdf_sh.take 2) ∧
      "agenda.pdf" ∈ runScript mergeFailsOutcome [] (create_pdf_sh.take 2) ∧
      runScript mergeFailsOutcome [] create_pdf_sh = [] ∧
      "invitation.pdf" ∈ runScript mergeFailsOutcome [] (create_pdf_variant.take 2) ∧
      "agenda.pdf" ∈ runScript mergeFailsOutcome [] (create_pdf_variant.take 2) ∧
      runScript mergeFailsOutcome [] create_pdf_variant = [] :=
  create_pdf_rm_unconditional mergeFailsOutcome rfl rfl rfl rfl

end PycsepWorkshop
